import Mathlib

/-!
# Verification of the end-to-end encrypted chat core

Shallow embedding of the repository's crypto layer (`js/services/crypto.js`,
the end-to-end encryption service built on the browser Web Crypto API) and of
the chat service (`js/services/chat.js`).

Modelling conventions:
* The platform primitives `crypto.subtle` (AES-256-GCM, RSA-OAEP) are external
  collaborators of the repository; they are embedded symbolically, as ideal
  authenticated encryption: an AES-GCM ciphertext records the key id, the IV
  and the plaintext it was produced from, and decryption succeeds exactly when
  key and IV match (this is what the authentication tag enforces).  RSA-OAEP
  key wrapping records the recipient key-pair id and the wrapped AES key id,
  and unwrapping succeeds exactly when the private key belongs to that pair.
* `btoa`/`atob` and the spki/raw serialisations are mutually inverse
  bijections, so a base64-encoded value is represented by the value itself;
  `exportPublicKey`/`importPublicKey` are therefore the identity on the
  symbolic key.
* `crypto.getRandomValues` is modelled by an ambient byte source
  `g : Nat → Nat` together with a position counter; each call consumes the
  next `n` positions (reduced mod 256, since the source fills a `Uint8Array`).
* JavaScript `async` code runs on a single-threaded event loop; every function
  is embedded as an explicit state transformer `ChatState → result × ChatState`.
  A thrown `Error` is an `Except.error` value; mutations performed before the
  throw are kept in the returned state, exactly as in the source.
-/

/-- An RSA-OAEP public key, identified by the id of the key pair it belongs
to (`_generateRSAKeyPair` in the source creates both halves together). -/
structure RsaPublicKey where
  pairId : Nat
deriving DecidableEq, Repr

/-- An RSA-OAEP private key, identified by the id of its key pair. -/
structure RsaPrivateKey where
  pairId : Nat
deriving DecidableEq, Repr

/-- An AES-256-GCM key, identified by the generation event that created it
(`generateChatKey` draws a fresh random key, so distinct generations give
distinct keys). -/
structure AesKey where
  keyId : Nat
deriving DecidableEq, Repr

/-- Symbolic AES-GCM ciphertext (the output of
`crypto.subtle.encrypt({name:'AES-GCM', iv}, key, data)` together with its
embedded authentication tag): it records the key, the IV and the plaintext.
The source stores it base64-encoded; base64 is a bijection and is elided. -/
structure GcmCiphertext where
  keyId : Nat
  iv : List Nat
  plaintext : String
deriving DecidableEq, Repr

/-- Symbolic RSA-OAEP ciphertext of a raw AES key
(`encryptChatKey` in the source): records the recipient's key-pair id and
the wrapped AES key. Stored base64-encoded in Firestore; base64 elided. -/
structure WrappedKey where
  pairId : Nat
  keyId : Nat
deriving DecidableEq, Repr

/-- Errors thrown by the crypto and chat layers.  The source throws
`Error(msg)`; each constructor is named after the spec's error taxonomy and
annotated with the exact message the code uses. -/
inductive ChatError where
  /-- The source message: Not authenticated. -/
  | notAuthenticated
  /-- The source message: a selected member has not enabled chat yet. -/
  | keyNotFound
  /-- The source message: Chat not found. -/
  | chatNotFound
  /-- The source message: No decryption key available for this chat. -/
  | notAParticipant
  /-- AES-GCM tag verification failure / RSA-OAEP operation error thrown by
  `crypto.subtle.decrypt`. -/
  | decryptionFailed
  /-- Firestore `updateDoc` on a missing document. -/
  | storageError
deriving DecidableEq, Repr

/-- Embeds `crypto.getRandomValues(new Uint8Array(n))` with ambient byte
source `g` at position `ctr`: returns the `n` drawn bytes and the advanced position. -/
def getRandomValues (g : Nat → Nat) (ctr n : Nat) : List Nat × Nat :=
  ((List.range n).map fun i => g (ctr + i) % 256, ctr + n)

/-- Source `exportPublicKey`: spki + base64 serialisation of an RSA public key,
a bijection — represented by the identity on the symbolic key. -/
def exportPublicKey (publicKey : RsaPublicKey) : RsaPublicKey :=
  publicKey

/-- Source `importPublicKey`: inverse of `exportPublicKey` — identity on the
symbolic key. -/
def importPublicKey (b64 : RsaPublicKey) : RsaPublicKey :=
  b64

/-- Source `encryptChatKey(aesKey, rsaPublicKey)`: RSA-OAEP encryption of the raw
AES key bytes under the recipient's public key. -/
def encryptChatKey (aesKey : AesKey) (rsaPublicKey : RsaPublicKey) : WrappedKey :=
  { pairId := rsaPublicKey.pairId, keyId := aesKey.keyId }

/-- Source `decryptChatKey(encryptedB64, rsaPrivateKey)`: RSA-OAEP decryption of a
wrapped AES key; succeeds exactly when the private key belongs to the key
pair the wrap was made for (otherwise `crypto.subtle.decrypt` throws). -/
def decryptChatKey (encryptedB64 : WrappedKey) (rsaPrivateKey : RsaPrivateKey) :
    Except ChatError AesKey :=
  if encryptedB64.pairId = rsaPrivateKey.pairId then
    .ok { keyId := encryptedB64.keyId }
  else
    .error .decryptionFailed

/-- The `{ ciphertext, iv }` object returned by `encryptMessage` (both
components base64-encoded in the source; base64 elided). -/
structure EncryptedPayload where
  ciphertext : GcmCiphertext
  iv : List Nat
deriving DecidableEq, Repr

/-- Source `encryptMessage(plaintext, aesKey)`: draws a fresh random 12-byte IV from
the ambient byte source at position `ctr` and AES-GCM-encrypts the plaintext.
Returns the payload and the advanced source position. -/
def encryptMessage (plaintext : String) (aesKey : AesKey) (g : Nat → Nat) (ctr : Nat) :
    EncryptedPayload × Nat :=
  let drawn := getRandomValues g ctr 12
  let iv := drawn.1
  ({ ciphertext := { keyId := aesKey.keyId, iv := iv, plaintext := plaintext }, iv := iv },
   drawn.2)

/-- Source `decryptMessage(ciphertextB64, ivB64, aesKey)`: AES-GCM decryption with
tag verification — succeeds exactly when the ciphertext was produced under
the same key and the same IV, returning the original plaintext. -/
def decryptMessage (ciphertextB64 : GcmCiphertext) (ivB64 : List Nat) (aesKey : AesKey) :
    Except ChatError String :=
  if ciphertextB64.keyId = aesKey.keyId ∧ ciphertextB64.iv = ivB64 then
    .ok ciphertextB64.plaintext
  else
    .error .decryptionFailed

/-!
## Chat service state (`js/services/chat.js`)

Firestore documents and the module-level mutable state of the chat service.
Chat ids (`chatRef.id` from `addDoc`) and message document ids are modelled
as naturals drawn from per-collection counters.
-/

/-- The `users/{uid}` document, as far as the chat layer reads it:
`chatPublicKey` is the published base64 RSA public key. -/
structure UserDoc where
  chatPublicKey : Option RsaPublicKey
deriving DecidableEq, Repr

/-- The Firebase Auth user object returned by `getCurrentUser()`. -/
structure AuthUser where
  uid : String
  email : Option String
deriving DecidableEq, Repr

/-- The cached profile returned by `getCachedProfile()`. -/
structure Profile where
  displayName : Option String
deriving DecidableEq, Repr

/-- The `chats/{chatId}/messages/{msgId}` document. `serverTimestamp()` values
are naturals taken from the store's clock. -/
structure MessageDoc where
  sender : String
  senderName : String
  encryptedContent : GcmCiphertext
  iv : List Nat
  timestamp : Nat
deriving DecidableEq, Repr

/-- The `chats/{chatId}` document. -/
structure ChatRecord where
  participants : List String
  encryptedKeys : List (String × WrappedKey)
  createdBy : String
  createdAt : Nat
  name : Option String
  lastMessageAt : Nat
deriving DecidableEq, Repr

/-- The Firestore database contents the chat service touches, plus the id
counters `addDoc` draws from and the server clock used by
`serverTimestamp()`. -/
structure Firestore where
  users : String → Option UserDoc
  chats : List (Nat × ChatRecord)
  nextChatId : Nat
  msgs : Nat → List (Nat × MessageDoc)
  nextMsgId : Nat
  now : Nat

/-- The whole mutable state a chat-service call can read or write:
the database handle, the auth session, the module-level `_keyCache`, the
IndexedDB-persisted RSA key pairs (`getUserKeyPair` is an idempotent
get-or-create, so it is a stable map from uid to key-pair id), the ambient
random byte source with its position, the fresh-AES-key counter, and an
unwrap-call counter instrumenting every `decryptChatKey` invocation (the
observation point named by the spec's cache-correctness property). -/
structure ChatState where
  db : Option Firestore
  currentUser : Option AuthUser
  cachedProfile : Option Profile
  keyCache : List (Nat × AesKey)
  keyPairOf : String → Nat
  nextAesId : Nat
  rgen : Nat → Nat
  rctr : Nat
  unwrapCalls : Nat

/-- Source `clearChatKeyCache()`: it runs `_keyCache.clear()`. -/
def clearChatKeyCache (s : ChatState) : ChatState :=
  { s with keyCache := [] }

/-- Source `generateChatKey()`: a fresh random AES-256-GCM key. -/
def generateChatKey (s : ChatState) : AesKey × ChatState :=
  ({ keyId := s.nextAesId }, { s with nextAesId := s.nextAesId + 1 })

/-- Embeds `[...new Set([user.uid, ...participantUids])]`: de-duplication keeping
the first occurrence of each element, in insertion order. -/
def dedupInsertionOrder (l : List String) : List String :=
  l.foldl (fun acc x => if acc.contains x then acc else acc ++ [x]) []

/-- JavaScript `name || null`: an absent or empty (falsy) name becomes
null. -/
def jsOrNull (name : Option String) : Option String :=
  match name with
  | some x => if x = "" then none else some x
  | none => none

/-- The key-fetch loop of `createChat`: for each uid in order, read
`users/{uid}`, take `snap.data()?.chatPublicKey`, throw on the first uid
whose key is missing (doc absent or field absent), otherwise import the
key.  Returns the `publicKeys` object as an association list over exactly
the input uids, in order. -/
def fetchChatPublicKeys (fs : Firestore) : List String →
    Except ChatError (List (String × RsaPublicKey))
  | [] => .ok []
  | uid :: rest =>
    match (fs.users uid).bind UserDoc.chatPublicKey with
    | none => .error .keyNotFound
    | some keyB64 =>
      match fetchChatPublicKeys fs rest with
      | .error e => .error e
      | .ok ks => .ok ((uid, importPublicKey keyB64) :: ks)

/-- Source `createChat(participantUids, name)`: compute the participant set, fetch
every participant's published public key (failing with `keyNotFound` if any
is missing, before anything is written), generate the chat's AES key, wrap
it for every participant, persist the chat record, and cache the key for
the creator.  The second loop of the source iterates `allUids` again and
reads `publicKeys[uid]`; since `fetchChatPublicKeys` returns exactly that
object keyed by `allUids` in order, the loop is its pointwise image. -/
def createChat (participantUids : List String) (name : Option String) (s : ChatState) :
    Except ChatError Nat × ChatState :=
  match s.db, s.currentUser with
  | some fs, some user =>
    let allUids := dedupInsertionOrder (user.uid :: participantUids)
    match fetchChatPublicKeys fs allUids with
    | .error e => (.error e, s)
    | .ok publicKeys =>
      let generated := generateChatKey s
      let chatKey := generated.1
      let encryptedKeys := publicKeys.map fun p => (p.1, encryptChatKey chatKey p.2)
      let chatId := fs.nextChatId
      let record : ChatRecord :=
        { participants := allUids, encryptedKeys := encryptedKeys,
          createdBy := user.uid, createdAt := fs.now, name := jsOrNull name,
          lastMessageAt := fs.now }
      let fs1 := { fs with chats := (chatId, record) :: fs.chats, nextChatId := chatId + 1 }
      (.ok chatId,
       { generated.2 with db := some fs1, keyCache := (chatId, chatKey) :: s.keyCache })
  | _, _ => (.error .notAuthenticated, s)

/-- Source `_getChatKey(chatId)`: cached key if present (before any auth or I/O);
otherwise fetch the chat record, read `encryptedKeys[user.uid]`, unwrap it
with the user's private key, cache and return it.  `unwrapCalls` counts the
`decryptChatKey` invocations. -/
def _getChatKey (chatId : Nat) (s : ChatState) : Except ChatError AesKey × ChatState :=
  match s.keyCache.lookup chatId with
  | some k => (.ok k, s)
  | none =>
    match s.db, s.currentUser with
    | some fs, some user =>
      match fs.chats.lookup chatId with
      | none => (.error .chatNotFound, s)
      | some chat =>
        match chat.encryptedKeys.lookup user.uid with
        | none => (.error .notAParticipant, s)
        | some encryptedB64 =>
          let privateKey : RsaPrivateKey := { pairId := s.keyPairOf user.uid }
          match decryptChatKey encryptedB64 privateKey with
          | .error e => (.error e, { s with unwrapCalls := s.unwrapCalls + 1 })
          | .ok aesKey =>
            (.ok aesKey,
             { s with keyCache := (chatId, aesKey) :: s.keyCache,
                      unwrapCalls := s.unwrapCalls + 1 })
    | _, _ => (.error .notAuthenticated, s)

/-- Drop the leading whitespace characters of a character list. -/
def dropLeadingWs : List Char → List Char
  | [] => []
  | c :: cs => if c.isWhitespace then dropLeadingWs cs else c :: cs

/-- JavaScript `text.trim()`: remove leading and trailing whitespace. -/
def jsTrim (s : String) : String :=
  String.mk ((dropLeadingWs ((dropLeadingWs s.data).reverse)).reverse)

/-- JavaScript `a || b` on strings: `a` unless it is absent or empty
(the empty string is falsy). -/
def jsOrString (a : Option String) (b : String) : String :=
  match a with
  | some x => if x = "" then b else x
  | none => b

/-- Source `sendMessage(chatId, text)`: after the auth check, a missing, empty or
whitespace-only `text` returns silently with no effect; otherwise the key is
resolved, `text.trim()` is encrypted under a fresh IV, the message document
is appended to `chats/{chatId}/messages`, and `lastMessageAt` is updated on
the chat document (`updateDoc` throws if that document is missing — the
appended message is kept, mirroring the source's mutation order). -/
def sendMessage (chatId : Nat) (text : Option String) (s : ChatState) :
    Except ChatError Unit × ChatState :=
  match s.db, s.currentUser with
  | some fs, some user =>
    let profile := s.cachedProfile
    if text = none ∨ text = some "" ∨ jsTrim (text.getD "") = "" then (.ok (), s)
    else
      let t := jsTrim (text.getD "")
      match _getChatKey chatId s with
      | (.error e, s1) => (.error e, s1)
      | (.ok aesKey, s1) =>
        let encrypted := encryptMessage t aesKey s1.rgen s1.rctr
        let msgDoc : MessageDoc :=
          { sender := user.uid,
            senderName := jsOrString (profile.bind Profile.displayName)
              (jsOrString user.email "Unknown"),
            encryptedContent := encrypted.1.ciphertext,
            iv := encrypted.1.iv,
            timestamp := fs.now }
        let fs1 :=
          { fs with
            msgs := fun cid =>
              if cid = chatId then fs.msgs chatId ++ [(fs.nextMsgId, msgDoc)]
              else fs.msgs cid,
            nextMsgId := fs.nextMsgId + 1 }
        match fs1.chats.lookup chatId with
        | none =>
          (.error .storageError, { s1 with db := some fs1, rctr := encrypted.2 })
        | some _ =>
          let fs2 :=
            { fs1 with
              chats := fs1.chats.map fun p =>
                if p.1 = chatId then (p.1, { p.2 with lastMessageAt := fs1.now }) else p }
          (.ok (), { s1 with db := some fs2, rctr := encrypted.2 })
  | _, _ => (.error .notAuthenticated, s)

/-!
## Message subscription (`subscribeToMessages`)

`subscribeToMessages` builds the query
`query(messages, orderBy('timestamp','asc'), limit(300))` and registers an
`onSnapshot` callback.  The query semantics (sort ascending by timestamp,
keep the first 300) and one delivery of the callback are embedded below.
-/

/-- The decrypted message object handed to the subscriber's callback. -/
structure UiMessage where
  id : Nat
  sender : String
  senderName : String
  text : String
  timestamp : Nat
deriving DecidableEq, Repr

/-- The per-document body of the snapshot loop: try to decrypt, fall back to
the fixed placeholder on failure, and always push the message. -/
def renderSnapshotDoc (aesKey : AesKey) (p : Nat × MessageDoc) : UiMessage :=
  { id := p.1, sender := p.2.sender, senderName := p.2.senderName,
    text :=
      match decryptMessage p.2.encryptedContent p.2.iv aesKey with
      | .ok t => t
      | .error _ => "[Unable to decrypt]",
    timestamp := p.2.timestamp }

/-- The `onSnapshot` callback of `subscribeToMessages` on one snapshot:
resolve the chat key (delivering `[]` if that throws), then decrypt each
document independently and deliver the whole batch. -/
def handleMessagesSnapshot (chatId : Nat) (docs : List (Nat × MessageDoc)) (s : ChatState) :
    List UiMessage × ChatState :=
  match _getChatKey chatId s with
  | (.error _, s1) => ([], s1)
  | (.ok aesKey, s1) => (docs.map (renderSnapshotDoc aesKey), s1)

/-- Embeds `orderBy('timestamp', 'asc')` and `limit(300)`: the documents of one
snapshot, sorted ascending by timestamp (stably) and truncated to the
first 300. -/
def messagesQuery (msgs : List (Nat × MessageDoc)) : List (Nat × MessageDoc) :=
  (msgs.mergeSort fun a b => a.2.timestamp ≤ b.2.timestamp).take 300

/-- One batch delivery of `subscribeToMessages(chatId, callback)`: the
query's current result set is snapshotted and handed to the callback.
With no database handle the subscription is never created and no batch is
delivered. -/
def subscribeToMessagesBatch (chatId : Nat) (s : ChatState) : List UiMessage × ChatState :=
  match s.db with
  | none => ([], s)
  | some fs => handleMessagesSnapshot chatId (messagesQuery (fs.msgs chatId)) s

/-!
## Concrete fixtures for witnesses and counterexamples
-/

/-- A directory where users A, B, C have published the public keys of their
key pairs 10, 11, 12, and nobody else has a user document. -/
def fsABC : Firestore :=
  { users := fun u =>
      if u = "A" then some { chatPublicKey := some { pairId := 10 } }
      else if u = "B" then some { chatPublicKey := some { pairId := 11 } }
      else if u = "C" then some { chatPublicKey := some { pairId := 12 } }
      else none,
    chats := [], nextChatId := 0, msgs := fun _ => [], nextMsgId := 0, now := 5 }

/-- The IndexedDB key-pair assignment matching `fsABC`. -/
def kpABC : String → Nat := fun u =>
  if u = "A" then 10 else if u = "B" then 11 else if u = "C" then 12 else 99

/-- A session where A is signed in against `fsABC`, with an empty cache. -/
def sABC : ChatState :=
  { db := some fsABC, currentUser := some { uid := "A", email := none },
    cachedProfile := none, keyCache := [], keyPairOf := kpABC,
    nextAesId := 7, rgen := fun n => n, rctr := 0, unwrapCalls := 0 }

/-- A store holding one chat between A and B whose AES key 7 is wrapped for
both participants. -/
def fsWithChat : Firestore :=
  { users := fsABC.users,
    chats := [(0,
      { participants := ["A", "B"],
        encryptedKeys := [("A", { pairId := 10, keyId := 7 }),
                          ("B", { pairId := 11, keyId := 7 })],
        createdBy := "A", createdAt := 5, name := none, lastMessageAt := 5 })],
    nextChatId := 1, msgs := fun _ => [], nextMsgId := 0, now := 6 }

/-- A's session against `fsWithChat` with chat 0's key already cached. -/
def sC8 : ChatState :=
  { db := some fsWithChat, currentUser := some { uid := "A", email := none },
    cachedProfile := none, keyCache := [(0, { keyId := 7 })], keyPairOf := kpABC,
    nextAesId := 8, rgen := fun n => n, rctr := 0, unwrapCalls := 0 }

/-- A signed-out state (no db handle, no user) that still holds a stale
cache entry for chat 0. -/
def sC7cached : ChatState :=
  { db := none, currentUser := none, cachedProfile := none,
    keyCache := [(0, { keyId := 7 })], keyPairOf := fun _ => 0, nextAesId := 0,
    rgen := fun n => n, rctr := 0, unwrapCalls := 0 }

/-- A signed-out state with an empty cache. -/
def sNoAuth : ChatState :=
  { db := none, currentUser := none, cachedProfile := none, keyCache := [],
    keyPairOf := fun _ => 0, nextAesId := 0, rgen := fun n => n, rctr := 0,
    unwrapCalls := 0 }

/-- A state with a database handle but no authenticated user. -/
def sC9bad : ChatState :=
  { db := some fsABC, currentUser := none, cachedProfile := none, keyCache := [],
    keyPairOf := kpABC, nextAesId := 0, rgen := fun n => n, rctr := 0,
    unwrapCalls := 0 }

/-- A message of chat 0 encrypted under the cached key 7 — decryptable. -/
def goodDoc : MessageDoc :=
  { sender := "A", senderName := "Alice",
    encryptedContent := { keyId := 7, iv := [1], plaintext := "hello" },
    iv := [1], timestamp := 1 }

/-- A message whose ciphertext was produced under a different key 9 — its
authentication tag cannot verify under key 7. -/
def badDoc : MessageDoc :=
  { sender := "B", senderName := "Bob",
    encryptedContent := { keyId := 9, iv := [2], plaintext := "x" },
    iv := [2], timestamp := 2 }

/-- The chat record `createChat` persists when every participant `u` has
published the public key of the pair `s.keyPairOf u`. -/
def createdRecord (s : ChatState) (parts : List String) (name : Option String)
    (fs : Firestore) (user : AuthUser) : ChatRecord :=
  { participants := dedupInsertionOrder (user.uid :: parts),
    encryptedKeys := (dedupInsertionOrder (user.uid :: parts)).map
      fun u => (u, { pairId := s.keyPairOf u, keyId := s.nextAesId }),
    createdBy := user.uid, createdAt := fs.now, name := jsOrNull name,
    lastMessageAt := fs.now }

/-- The state after a successful `createChat` under the same hypotheses. -/
def createdState (s : ChatState) (parts : List String) (name : Option String)
    (fs : Firestore) (user : AuthUser) : ChatState :=
  { s with
    db := some
      { fs with
        chats := (fs.nextChatId, createdRecord s parts name fs user) :: fs.chats,
        nextChatId := fs.nextChatId + 1 },
    nextAesId := s.nextAesId + 1,
    keyCache := (fs.nextChatId, { keyId := s.nextAesId }) :: s.keyCache }

/-!
## Shared lemmas
-/

theorem lookup_map_pair_mem {β : Type} (f : String → β) :
    ∀ (l : List String) (u : String), u ∈ l →
      List.lookup u (l.map fun x => (x, f x)) = some (f u) := by
  intro l
  induction l with
  | nil => intro u hu; exact absurd hu (List.not_mem_nil u)
  | cons x xs ih =>
    intro u hu
    by_cases h : u = x
    · subst h; simp [List.lookup]
    · have hmem : u ∈ xs := by
        rcases List.mem_cons.1 hu with h1 | h1
        · exact absurd h1 h
        · exact h1
      have hbeq : (u == x) = false := by simp [h]
      simp [List.lookup, hbeq, ih u hmem]

theorem lookup_map_pair_not_mem {β : Type} (f : String → β) :
    ∀ (l : List String) (u : String), u ∉ l →
      List.lookup u (l.map fun x => (x, f x)) = none := by
  intro l
  induction l with
  | nil => intro u _; rfl
  | cons x xs ih =>
    intro u hu
    have hx : ¬u = x := fun h => hu (h ▸ List.mem_cons_self x xs)
    have hxs : u ∉ xs := fun h => hu (List.mem_cons_of_mem x h)
    have hbeq : (u == x) = false := by simp [hx]
    simp [List.lookup, hbeq, ih u hxs]

/-- When every uid in the list has a published key given by `pk`, the fetch
loop succeeds and returns exactly those keys, in order. -/
theorem fetchChatPublicKeys_ok (fs : Firestore) (pk : String → RsaPublicKey) :
    ∀ (l : List String),
      (∀ u ∈ l, (fs.users u).bind UserDoc.chatPublicKey = some (pk u)) →
      fetchChatPublicKeys fs l = .ok (l.map fun u => (u, pk u)) := by
  intro l
  induction l with
  | nil => intro _; rfl
  | cons x xs ih =>
    intro h
    have hx := h x (List.mem_cons_self x xs)
    have hxs := ih fun u hu => h u (List.mem_cons_of_mem x hu)
    simp [fetchChatPublicKeys, hx, hxs, importPublicKey]

/-- If some uid in the list has no published key, the fetch loop fails with
`keyNotFound` (whichever missing uid is hit first). -/
theorem fetchChatPublicKeys_missing (fs : Firestore) :
    ∀ (l : List String) (u : String), u ∈ l →
      (fs.users u).bind UserDoc.chatPublicKey = none →
      fetchChatPublicKeys fs l = .error .keyNotFound := by
  intro l
  induction l with
  | nil => intro u hu; exact absurd hu (List.not_mem_nil u)
  | cons x xs ih =>
    intro u hu hmiss
    by_cases hx : (fs.users x).bind UserDoc.chatPublicKey = none
    · simp [fetchChatPublicKeys, hx]
    · have hux : u ≠ x := fun h => hx (h ▸ hmiss)
      have hmem : u ∈ xs := by
        rcases List.mem_cons.1 hu with h1 | h1
        · exact absurd h1 hux
        · exact h1
      rcases Option.ne_none_iff_exists'.1 hx with ⟨k, hk⟩
      simp [fetchChatPublicKeys, hk, ih u hmem hmiss]

/-- Normal form of a successful `createChat`: when every member of the
participant set has published the public key of their own key pair, the call
returns the next chat id, persists `createdRecord`, and caches the freshly
generated key for the creator. -/
theorem createChat_ok (s : ChatState) (parts : List String) (name : Option String)
    (fs : Firestore) (user : AuthUser)
    (hdb : s.db = some fs) (huser : s.currentUser = some user)
    (hkeys : ∀ u ∈ dedupInsertionOrder (user.uid :: parts),
      (fs.users u).bind UserDoc.chatPublicKey = some { pairId := s.keyPairOf u }) :
    createChat parts name s = (.ok fs.nextChatId, createdState s parts name fs user) := by
  have hfetch := fetchChatPublicKeys_ok fs (fun u => { pairId := s.keyPairOf u })
    (dedupInsertionOrder (user.uid :: parts)) hkeys
  simp [createChat, hdb, huser, hfetch, generateChatKey, encryptChatKey,
    createdState, createdRecord, List.map_map, Function.comp]

/-!
## Claims
-/

/-- C2: for every conversation created by `createChat` with a participant
set (owner plus participants, de-duplicated) whose members have each
published their own public key, `_getChatKey` invoked by each participant —
unwrapping the wrapped-key entry stored for them with their own private key,
starting from an empty cache — returns the same symmetric conversation key
that was generated at creation, namely the fresh key `⟨s.nextAesId⟩`. -/
theorem C2_multi_recipient_key_agreement (s : ChatState) (parts : List String)
    (name : Option String) (fs : Firestore) (user : AuthUser)
    (hdb : s.db = some fs) (huser : s.currentUser = some user)
    (hkeys : ∀ u ∈ dedupInsertionOrder (user.uid :: parts),
      (fs.users u).bind UserDoc.chatPublicKey = some { pairId := s.keyPairOf u }) :
    (createChat parts name s).1 = .ok fs.nextChatId ∧
    ∀ u ∈ dedupInsertionOrder (user.uid :: parts),
      (_getChatKey fs.nextChatId
        { (createChat parts name s).2 with
          currentUser := some { uid := u, email := none }, keyCache := [] }).1
        = .ok { keyId := s.nextAesId } := by
  have hc := createChat_ok s parts name fs user hdb huser hkeys
  refine ⟨by rw [hc], ?_⟩
  intro u hu
  rw [hc]
  have hlk := lookup_map_pair_mem
    (fun u => ({ pairId := s.keyPairOf u, keyId := s.nextAesId } : WrappedKey))
    (dedupInsertionOrder (user.uid :: parts)) u hu
  simp [_getChatKey, createdState, createdRecord, List.lookup, hlk, decryptChatKey]

/-- C3: when some member of the participant set has no published public key
in the directory, `createChat` fails with `keyNotFound` and the state is
returned unchanged — no conversation record is persisted, nothing is
cached, no key is generated. -/
theorem C3_missing_key_refusal (s : ChatState) (parts : List String)
    (name : Option String) (fs : Firestore) (user : AuthUser) (u : String)
    (hdb : s.db = some fs) (huser : s.currentUser = some user)
    (hu : u ∈ dedupInsertionOrder (user.uid :: parts))
    (hmiss : (fs.users u).bind UserDoc.chatPublicKey = none) :
    createChat parts name s = (.error .keyNotFound, s) := by
  have hfetch := fetchChatPublicKeys_missing fs
    (dedupInsertionOrder (user.uid :: parts)) u hu hmiss
  simp [createChat, hdb, huser, hfetch]

/-- C4: for every conversation created by `createChat` and every user `D`
outside its participant set, the persisted record holds no wrapped-key entry
for `D`, and `_getChatKey` invoked by `D` (with an empty cache) fails with
`notAParticipant` precisely because that entry is absent. -/
theorem C4_exclusion (s : ChatState) (parts : List String) (name : Option String)
    (fs : Firestore) (user : AuthUser) (D : String)
    (hdb : s.db = some fs) (huser : s.currentUser = some user)
    (hkeys : ∀ u ∈ dedupInsertionOrder (user.uid :: parts),
      (fs.users u).bind UserDoc.chatPublicKey = some { pairId := s.keyPairOf u })
    (hD : D ∉ dedupInsertionOrder (user.uid :: parts)) :
    (createChat parts name s).1 = .ok fs.nextChatId ∧
    (∃ fs1 record,
      (createChat parts name s).2.db = some fs1 ∧
      fs1.chats.lookup fs.nextChatId = some record ∧
      record.encryptedKeys.lookup D = none) ∧
    (_getChatKey fs.nextChatId
      { (createChat parts name s).2 with
        currentUser := some { uid := D, email := none }, keyCache := [] }).1
      = .error .notAParticipant := by
  have hc := createChat_ok s parts name fs user hdb huser hkeys
  have hlk := lookup_map_pair_not_mem
    (fun u => ({ pairId := s.keyPairOf u, keyId := s.nextAesId } : WrappedKey))
    (dedupInsertionOrder (user.uid :: parts)) D hD
  refine ⟨by rw [hc], ?_, ?_⟩
  · rw [hc]
    refine ⟨_, createdRecord s parts name fs user, rfl, ?_, ?_⟩
    · simp [createdState, List.lookup]
    · simpa [createdRecord] using hlk
  · rw [hc]
    simp [_getChatKey, createdState, createdRecord, List.lookup, hlk]

/-- C1: for every plaintext string `p` and every AES-256-GCM key `k`,
`decryptMessage` applied to the ciphertext and iv produced by
`encryptMessage(p, k)`, with the same key `k`, returns `p` — for any state
of the random source. -/
theorem C1_encrypt_decrypt_roundtrip (p : String) (k : AesKey) (g : Nat → Nat) (ctr : Nat) :
    decryptMessage (encryptMessage p k g ctr).1.ciphertext (encryptMessage p k g ctr).1.iv k
      = .ok p := by
  simp [encryptMessage, decryptMessage]

/-- C5: every invocation of `encryptMessage` draws a fresh random 12-byte IV
(the next 12 bytes of the random source, advancing its position), and two
successive encryptions of the same plaintext under the same key produce
different ciphertext/iv pairs whenever the source bytes backing the two
draws differ — which, for a cryptographically random source, happens with
overwhelming probability. -/
theorem C5_fresh_iv_no_reuse (p₁ p₂ : String) (k : AesKey) (g : Nat → Nat) (ctr : Nat)
    (hg : g ctr % 256 ≠ g (ctr + 12) % 256) :
    (encryptMessage p₁ k g ctr).1.iv = (getRandomValues g ctr 12).1 ∧
    (encryptMessage p₁ k g ctr).1.iv.length = 12 ∧
    (encryptMessage p₁ k g ctr).2 = ctr + 12 ∧
    ((encryptMessage p₁ k g ctr).1.ciphertext, (encryptMessage p₁ k g ctr).1.iv) ≠
      ((encryptMessage p₂ k g (ctr + 12)).1.ciphertext,
       (encryptMessage p₂ k g (ctr + 12)).1.iv) := by
  have hr : List.range 12 = [0, 1, 2, 3, 4, 5, 6, 7, 8, 9, 10, 11] := by decide
  refine ⟨rfl, by simp [encryptMessage, getRandomValues], rfl, ?_⟩
  intro h
  apply hg
  have h2 := congrArg (fun q : GcmCiphertext × List Nat => q.2.head?) h
  simpa [encryptMessage, getRandomValues, hr] using h2

/-- C6: whenever the chat key resolves, the snapshot handler delivers one
entry per document of the batch — a per-message decryption failure never
aborts the others — and each entry's text is the decrypted plaintext when
the tag verifies and the fixed placeholder `"[Unable to decrypt]"`
otherwise, never altered plaintext. -/
theorem C6_batch_isolation (chatId : Nat) (docs : List (Nat × MessageDoc))
    (s : ChatState) (k : AesKey) (s1 : ChatState)
    (hk : _getChatKey chatId s = (.ok k, s1)) :
    (handleMessagesSnapshot chatId docs s).1.length = docs.length ∧
    (handleMessagesSnapshot chatId docs s).1.map UiMessage.text =
      docs.map fun p =>
        match decryptMessage p.2.encryptedContent p.2.iv k with
        | .ok t => t
        | .error _ => "[Unable to decrypt]" := by
  constructor <;>
    simp [handleMessagesSnapshot, hk, renderSnapshotDoc, List.map_map, Function.comp]

/-- C7 (amended): with no authenticated session, `createChat` and
`sendMessage` always fail with `notAuthenticated`, and `_getChatKey` fails
with `notAuthenticated` whenever the requested key is not in the session
cache; a cache hit, however, is returned before the authentication check,
so a conversation key already cached is handed back without error. -/
theorem C7_not_authenticated (s : ChatState) (huser : s.currentUser = none) :
    (∀ parts name, createChat parts name s = (.error .notAuthenticated, s)) ∧
    (∀ chatId text, sendMessage chatId text s = (.error .notAuthenticated, s)) ∧
    (∀ chatId, s.keyCache.lookup chatId = none →
      _getChatKey chatId s = (.error .notAuthenticated, s)) ∧
    (∀ chatId k, s.keyCache.lookup chatId = some k →
      _getChatKey chatId s = (.ok k, s)) := by
  refine ⟨?_, ?_, ?_, ?_⟩
  · intro parts name; cases hdb : s.db <;> simp [createChat, hdb, huser]
  · intro chatId text; cases hdb : s.db <;> simp [sendMessage, hdb, huser]
  · intro chatId hc; cases hdb : s.db <;> simp [_getChatKey, hc, hdb, huser]
  · intro chatId k hc; simp [_getChatKey, hc]

/-- C8: `clearChatKeyCache` leaves the cache with no entries, and a
subsequent `_getChatKey` does not use any previously cached value: it
fetches the record, RSA-OAEP-decrypts the caller's wrapped-key entry again
(the unwrap-call counter increases by one), and returns the key recovered
from that entry. -/
theorem C8_clear_forces_reunwrap (s : ChatState) (chatId : Nat) (fs : Firestore)
    (user : AuthUser) (chat : ChatRecord) (w : WrappedKey)
    (hdb : s.db = some fs) (huser : s.currentUser = some user)
    (hchat : fs.chats.lookup chatId = some chat)
    (hw : chat.encryptedKeys.lookup user.uid = some w)
    (hpair : w.pairId = s.keyPairOf user.uid) :
    (clearChatKeyCache s).keyCache = [] ∧
    _getChatKey chatId (clearChatKeyCache s) =
      (.ok { keyId := w.keyId },
       { s with keyCache := [(chatId, { keyId := w.keyId })],
                unwrapCalls := s.unwrapCalls + 1 }) := by
  refine ⟨rfl, ?_⟩
  simp [_getChatKey, clearChatKeyCache, hdb, huser, hchat, hw, decryptChatKey, hpair]

/-- C9 (amended): in an authenticated session, `sendMessage` on a missing,
empty or whitespace-only text returns without error and without any side
effect (the state is unchanged: no key resolution, no encryption, nothing
appended); for any other text, the message document that is appended stores
the encryption of `text.trim()` — the trimmed plaintext, not `text`
itself. -/
theorem C9_send_message_trim (s : ChatState) (fs : Firestore) (user : AuthUser)
    (hdb : s.db = some fs) (huser : s.currentUser = some user) :
    (∀ chatId, sendMessage chatId none s = (.ok (), s)) ∧
    (∀ chatId (t : String), jsTrim t = "" → sendMessage chatId (some t) s = (.ok (), s)) ∧
    (∀ chatId (t : String) (k : AesKey) (s1 : ChatState), jsTrim t ≠ "" →
      _getChatKey chatId s = (.ok k, s1) →
      ∃ fs2 : Firestore,
        (sendMessage chatId (some t) s).2.db = some fs2 ∧
        fs2.msgs chatId = fs.msgs chatId ++
          [(fs.nextMsgId,
            { sender := user.uid,
              senderName := jsOrString (s.cachedProfile.bind Profile.displayName)
                (jsOrString user.email "Unknown"),
              encryptedContent := (encryptMessage (jsTrim t) k s1.rgen s1.rctr).1.ciphertext,
              iv := (encryptMessage (jsTrim t) k s1.rgen s1.rctr).1.iv,
              timestamp := fs.now })] ∧
        (encryptMessage (jsTrim t) k s1.rgen s1.rctr).1.ciphertext.plaintext = jsTrim t) := by
  refine ⟨?_, ?_, ?_⟩
  · intro chatId; simp [sendMessage, hdb, huser]
  · intro chatId t ht; simp [sendMessage, hdb, huser, ht]
  · intro chatId t k s1 ht hk
    have ht0 : t ≠ "" := fun h => ht (by rw [h]; rfl)
    simp only [sendMessage, hdb, huser, hk, Option.getD_some]
    rw [if_neg (by simp [ht, ht0])]
    split
    · exact ⟨_, rfl, by simp, rfl⟩
    · exact ⟨_, rfl, by simp, rfl⟩

/-- C10: every batch delivered by the message subscription holds at most
300 messages; whenever the chat key resolves, the batch is exactly the
rendering of the first 300 documents in ascending timestamp order — the
oldest messages — so its timestamps are sorted and nothing beyond that
limit is delivered. -/
theorem C10_batch_limit (chatId : Nat) (s : ChatState) (fs : Firestore)
    (k : AesKey) (s1 : ChatState)
    (hdb : s.db = some fs) (hk : _getChatKey chatId s = (.ok k, s1)) :
    (∀ s2, (subscribeToMessagesBatch chatId s2).1.length ≤ 300) ∧
    (subscribeToMessagesBatch chatId s).1 =
      (((fs.msgs chatId).mergeSort fun a b => a.2.timestamp ≤ b.2.timestamp).take 300).map
        (renderSnapshotDoc k) ∧
    ((subscribeToMessagesBatch chatId s).1.map UiMessage.timestamp).Sorted (· ≤ ·) := by
  have hbatch : (subscribeToMessagesBatch chatId s).1 =
      (((fs.msgs chatId).mergeSort fun a b => a.2.timestamp ≤ b.2.timestamp).take 300).map
        (renderSnapshotDoc k) := by
    simp [subscribeToMessagesBatch, hdb, handleMessagesSnapshot, hk, messagesQuery]
  refine ⟨?_, hbatch, ?_⟩
  · intro s2
    rcases s2 with ⟨db2, cu2, p2, kc2, kp2, na2, rg2, rc2, uw2⟩
    cases db2 with
    | none => simp [subscribeToMessagesBatch]
    | some fs2 =>
      simp only [subscribeToMessagesBatch, handleMessagesSnapshot]
      split
      · simp
      · simp [messagesQuery]
  · rw [hbatch]
    have htrans : ∀ a b c : Nat × MessageDoc,
        decide (a.2.timestamp ≤ b.2.timestamp) = true →
        decide (b.2.timestamp ≤ c.2.timestamp) = true →
        decide (a.2.timestamp ≤ c.2.timestamp) = true := by
      intro a b c hab hbc
      simp only [decide_eq_true_eq] at *
      exact le_trans hab hbc
    have htotal : ∀ a b : Nat × MessageDoc,
        (decide (a.2.timestamp ≤ b.2.timestamp) || decide (b.2.timestamp ≤ a.2.timestamp))
          = true := by
      intro a b
      simp [Bool.or_eq_true, decide_eq_true_eq, Nat.le_total]
    have hs := List.sorted_mergeSort htrans htotal (fs.msgs chatId)
    have hs2 : ((fs.msgs chatId).mergeSort fun a b =>
        decide (a.2.timestamp ≤ b.2.timestamp)).Pairwise
        (fun a b : Nat × MessageDoc => a.2.timestamp ≤ b.2.timestamp) := by
      refine hs.imp ?_
      intro a b h
      simpa using h
    have hs3 := List.Pairwise.sublist (List.take_sublist 300 _) hs2
    rw [List.map_map]
    exact List.pairwise_map.mpr hs3

/-- Witness for C5 at a concrete source and position. -/
theorem C5_witness :
    (fun n => n : Nat → Nat) 0 % 256 ≠ (fun n => n : Nat → Nat) (0 + 12) % 256 ∧
    ((encryptMessage "a" ⟨0⟩ (fun n => n) 0).1.iv = (getRandomValues (fun n => n) 0 12).1 ∧
     (encryptMessage "a" ⟨0⟩ (fun n => n) 0).1.iv.length = 12 ∧
     (encryptMessage "a" ⟨0⟩ (fun n => n) 0).2 = 0 + 12 ∧
     ((encryptMessage "a" ⟨0⟩ (fun n => n) 0).1.ciphertext,
      (encryptMessage "a" ⟨0⟩ (fun n => n) 0).1.iv) ≠
       ((encryptMessage "a" ⟨0⟩ (fun n => n) (0 + 12)).1.ciphertext,
        (encryptMessage "a" ⟨0⟩ (fun n => n) (0 + 12)).1.iv)) :=
  ⟨by decide, C5_fresh_iv_no_reuse "a" "a" ⟨0⟩ (fun n => n) 0 (by decide)⟩



/-!
## Witnesses and counterexamples
-/

/-- Witness for C2: A creates a chat with B and C against `fsABC`; each of
A, B, C resolves the same freshly generated key 7. -/
theorem C2_witness :
    sABC.db = some fsABC ∧
    sABC.currentUser = some { uid := "A", email := none } ∧
    (∀ u ∈ dedupInsertionOrder ("A" :: ["B", "C"]),
      (fsABC.users u).bind UserDoc.chatPublicKey = some { pairId := sABC.keyPairOf u }) ∧
    ((createChat ["B", "C"] none sABC).1 = .ok fsABC.nextChatId ∧
     ∀ u ∈ dedupInsertionOrder ("A" :: ["B", "C"]),
       (_getChatKey fsABC.nextChatId
         { (createChat ["B", "C"] none sABC).2 with
           currentUser := some { uid := u, email := none }, keyCache := [] }).1
         = .ok { keyId := sABC.nextAesId }) :=
  ⟨rfl, rfl, by decide,
   C2_multi_recipient_key_agreement sABC ["B", "C"] none fsABC
     { uid := "A", email := none } rfl rfl (by decide)⟩

/-- Witness for C3: participant D has no published key, so the creation
fails with `keyNotFound` and the state is untouched. -/
theorem C3_witness :
    sABC.db = some fsABC ∧
    sABC.currentUser = some { uid := "A", email := none } ∧
    "D" ∈ dedupInsertionOrder ("A" :: ["D"]) ∧
    (fsABC.users "D").bind UserDoc.chatPublicKey = none ∧
    createChat ["D"] none sABC = (.error .keyNotFound, sABC) :=
  ⟨rfl, rfl, by decide, rfl,
   C3_missing_key_refusal sABC ["D"] none fsABC { uid := "A", email := none }
     "D" rfl rfl (by decide) rfl⟩

/-- Witness for C4: D is outside the chat A created with B and C, has no
wrapped-key entry, and resolution fails with `notAParticipant`. -/
theorem C4_witness :
    (∀ u ∈ dedupInsertionOrder ("A" :: ["B", "C"]),
      (fsABC.users u).bind UserDoc.chatPublicKey = some { pairId := sABC.keyPairOf u }) ∧
    "D" ∉ dedupInsertionOrder ("A" :: ["B", "C"]) ∧
    ((createChat ["B", "C"] none sABC).1 = .ok fsABC.nextChatId ∧
     (∃ fs1 record,
       (createChat ["B", "C"] none sABC).2.db = some fs1 ∧
       fs1.chats.lookup fsABC.nextChatId = some record ∧
       record.encryptedKeys.lookup "D" = none) ∧
     (_getChatKey fsABC.nextChatId
       { (createChat ["B", "C"] none sABC).2 with
         currentUser := some { uid := "D", email := none }, keyCache := [] }).1
       = .error .notAParticipant) :=
  ⟨by decide, by decide,
   C4_exclusion sABC ["B", "C"] none fsABC { uid := "A", email := none }
     "D" rfl rfl (by decide) (by decide)⟩

/-- Witness for C6: a two-message batch in which the second ciphertext was
made under a different key — the batch is still delivered whole, the bad
message as the placeholder. -/
theorem C6_witness :
    _getChatKey 0 sC8 = (.ok { keyId := 7 }, sC8) ∧
    ((handleMessagesSnapshot 0 [(0, goodDoc), (1, badDoc)] sC8).1.length =
       ([(0, goodDoc), (1, badDoc)] : List (Nat × MessageDoc)).length ∧
     (handleMessagesSnapshot 0 [(0, goodDoc), (1, badDoc)] sC8).1.map UiMessage.text =
       ([(0, goodDoc), (1, badDoc)] : List (Nat × MessageDoc)).map fun p =>
         match decryptMessage p.2.encryptedContent p.2.iv { keyId := 7 } with
         | .ok t => t
         | .error _ => "[Unable to decrypt]") :=
  ⟨rfl, C6_batch_isolation 0 [(0, goodDoc), (1, badDoc)] sC8 { keyId := 7 } sC8 rfl⟩

/-- Counterexample for C7 as stated: in a signed-out state whose session
cache still holds chat 0's key, `_getChatKey` returns the cached key
instead of failing with `notAuthenticated`. -/
theorem C7_counterexample :
    sC7cached.currentUser = none ∧
    (_getChatKey 0 sC7cached).1 = .ok { keyId := 7 } ∧
    (_getChatKey 0 sC7cached).1 ≠ .error .notAuthenticated := by
  refine ⟨rfl, rfl, fun h => ?_⟩
  rw [show (_getChatKey 0 sC7cached).1 = .ok { keyId := 7 } from rfl] at h
  exact Except.noConfusion h

/-- Witness for the amended C7 at a concrete signed-out state. -/
theorem C7_witness :
    sNoAuth.currentUser = none ∧
    ((∀ parts name, createChat parts name sNoAuth = (.error .notAuthenticated, sNoAuth)) ∧
     (∀ chatId text, sendMessage chatId text sNoAuth = (.error .notAuthenticated, sNoAuth)) ∧
     (∀ chatId, sNoAuth.keyCache.lookup chatId = none →
       _getChatKey chatId sNoAuth = (.error .notAuthenticated, sNoAuth)) ∧
     (∀ chatId k, sNoAuth.keyCache.lookup chatId = some k →
       _getChatKey chatId sNoAuth = (.ok k, sNoAuth))) :=
  ⟨rfl, C7_not_authenticated sNoAuth rfl⟩

/-- Witness for C8: after clearing A's cache, resolving chat 0 re-unwraps
A's wrapped-key entry (one more unwrap call) and returns key 7 again. -/
theorem C8_witness :
    sC8.db = some fsWithChat ∧
    sC8.currentUser = some { uid := "A", email := none } ∧
    fsWithChat.chats.lookup 0 = some
      { participants := ["A", "B"],
        encryptedKeys := [("A", { pairId := 10, keyId := 7 }),
                          ("B", { pairId := 11, keyId := 7 })],
        createdBy := "A", createdAt := 5, name := none, lastMessageAt := 5 } ∧
    ((clearChatKeyCache sC8).keyCache = [] ∧
     _getChatKey 0 (clearChatKeyCache sC8) =
       (.ok { keyId := 7 },
        { sC8 with keyCache := [(0, { keyId := 7 })],
                   unwrapCalls := sC8.unwrapCalls + 1 })) :=
  ⟨rfl, rfl, by decide,
   C8_clear_forces_reunwrap sC8 0 fsWithChat { uid := "A", email := none }
     { participants := ["A", "B"],
       encryptedKeys := [("A", { pairId := 10, keyId := 7 }),
                         ("B", { pairId := 11, keyId := 7 })],
       createdBy := "A", createdAt := 5, name := none, lastMessageAt := 5 }
     { pairId := 10, keyId := 7 } rfl rfl (by decide) (by decide) (by decide)⟩

/-- Counterexample for C9 as stated: with no authenticated user, a
`sendMessage` call whose text is empty does not return without error — the
authentication check precedes the empty-text check. -/
theorem C9_counterexample :
    sC9bad.currentUser = none ∧
    sendMessage 0 (some "") sC9bad = (.error .notAuthenticated, sC9bad) ∧
    (sendMessage 0 (some "") sC9bad).1 ≠ .ok () := by
  refine ⟨rfl, rfl, fun h => ?_⟩
  rw [show (sendMessage 0 (some "") sC9bad).1 = .error .notAuthenticated from rfl] at h
  exact Except.noConfusion h

/-- Witness for the amended C9 at A's authenticated session. -/
theorem C9_witness :
    sC8.db = some fsWithChat ∧
    sC8.currentUser = some { uid := "A", email := none } ∧
    ((∀ chatId, sendMessage chatId none sC8 = (.ok (), sC8)) ∧
     (∀ chatId (t : String), jsTrim t = "" →
       sendMessage chatId (some t) sC8 = (.ok (), sC8)) ∧
     (∀ chatId (t : String) (k : AesKey) (s1 : ChatState), jsTrim t ≠ "" →
       _getChatKey chatId sC8 = (.ok k, s1) →
       ∃ fs2 : Firestore,
         (sendMessage chatId (some t) sC8).2.db = some fs2 ∧
         fs2.msgs chatId = fsWithChat.msgs chatId ++
           [(fsWithChat.nextMsgId,
             { sender := "A",
               senderName := jsOrString (sC8.cachedProfile.bind Profile.displayName)
                 (jsOrString (none : Option String) "Unknown"),
               encryptedContent := (encryptMessage (jsTrim t) k s1.rgen s1.rctr).1.ciphertext,
               iv := (encryptMessage (jsTrim t) k s1.rgen s1.rctr).1.iv,
               timestamp := fsWithChat.now })] ∧
         (encryptMessage (jsTrim t) k s1.rgen s1.rctr).1.ciphertext.plaintext = jsTrim t)) :=
  ⟨rfl, rfl, C9_send_message_trim sC8 fsWithChat { uid := "A", email := none } rfl rfl⟩

/-- Witness for C10 at A's session with the chat key cached. -/
theorem C10_witness :
    sC8.db = some fsWithChat ∧
    _getChatKey 0 sC8 = (.ok { keyId := 7 }, sC8) ∧
    ((∀ s2, (subscribeToMessagesBatch 0 s2).1.length ≤ 300) ∧
     (subscribeToMessagesBatch 0 sC8).1 =
       (((fsWithChat.msgs 0).mergeSort fun a b => a.2.timestamp ≤ b.2.timestamp).take 300).map
         (renderSnapshotDoc { keyId := 7 }) ∧
     ((subscribeToMessagesBatch 0 sC8).1.map UiMessage.timestamp).Sorted (· ≤ ·)) :=
  ⟨rfl, rfl, C10_batch_limit 0 sC8 fsWithChat { keyId := 7 } sC8 rfl rfl⟩
